import Mathlib

/-!
Shallow embedding of the `darts` sequential training dataset
(`darts/utils/data/sequential_dataset.py`) and of the Kalman filter
orchestration layer (`darts/models/filtering/kalman_filter.py`).

Python integer arithmetic is modelled with `Int.fdiv` / `Int.fmod`
(floor division and floor modulo, exactly Python's `//` and `%`), and
Python sequence indexing/slicing on numpy arrays and lists is modelled
by `pyGet` / `pySlice` / `pySliceFrom` below.
-/

namespace Darts

/-- The error taxonomy of the embedded code paths. `validationError`
models `raise_if_not` failures, `outOfRangeError` the "series too
short" failure, `alignmentError` a covariate alignment failure,
`indexError` a Python sequence `IndexError`, `zeroDivisionError` a
Python `ZeroDivisionError`, `attributeError` a Python
`AttributeError` (accessing a never-assigned attribute), and
`valueError` the `ValueError` raised by `max()` on an empty sequence. -/
inductive DartsError where
  | validationError
  | outOfRangeError
  | alignmentError
  | indexError
  | zeroDivisionError
  | attributeError
  | valueError
deriving DecidableEq, Repr

/-- Normalisation of one Python slice bound against a sequence of
length `n`: a negative bound counts from the end and is clamped below
at `0`; a non-negative bound is clamped above at `n`. -/
def pyBound (n : Nat) (i : Int) : Nat :=
  if i < 0 then ((n : Int) + i).toNat else min i.toNat n

/-- Python slicing `xs[a:b]` (step 1) on a sequence, with negative
bounds counting from the end and out-of-range bounds clamped —
never an error. This is also numpy's basic-slice behaviour. -/
def pySlice (xs : List α) (a b : Int) : List α :=
  (xs.take (pyBound xs.length b)).drop (pyBound xs.length a)

/-- Python slicing `xs[a:]`. -/
def pySliceFrom (xs : List α) (a : Int) : List α :=
  xs.drop (pyBound xs.length a)

/-- Python sequence element lookup `xs[i]`: a negative index counts
from the end; an index out of range (on either side) is an
`IndexError`, modelled by `none`. -/
def pyGet (xs : List α) (i : Int) : Option α :=
  let j : Int := if i < 0 then (xs.length : Int) + i else i
  if j < 0 then none else xs.get? j.toNat

/-- A time series: a sequence of (timestamp, value) pairs.  The time
index is the first components, the value array the second. -/
abbrev TSeries (α : Type) := List (Int × α)

/-- `darts.utils.data.sequential_dataset.SequentialDataset` after
`__init__` has run: the stored attributes.  `max_samples_per_ts` is
the *effective* value (the attribute after the `None` branch of
`__init__` possibly replaced it), an `Int` because the eager-scan
formula can produce a non-positive value. -/
structure SequentialDataset (α : Type) where
  target_series : List (TSeries α)
  covariates : Option (List (TSeries α))
  input_chunk_length : Nat
  output_chunk_length : Nat
  max_samples_per_ts : Int
deriving Repr

/-- `max(len(ts) for ts in l)` for a non-empty `l` (`foldr max 0`
agrees with Python's `max` on lists of naturals containing at least
one element, as lengths are ≥ 0). -/
def maxSeriesLength (l : List (TSeries α)) : Nat :=
  (l.map List.length).foldr max 0

/-- `SequentialDataset.__init__`: stores the series and configuration;
checks only that a provided covariate collection has the same length
as the target collection (`raise_if_not`); when `max_samples_per_ts`
is `None`, eagerly computes
`max(len(ts) for ts in target_series) - output_chunk_length - input_chunk_length + 1`
(Python's `max()` raises `ValueError` on an empty collection).
No other validation is performed. -/
def SequentialDataset.make (targets : List (TSeries α))
    (covs : Option (List (TSeries α)))
    (input_chunk_length output_chunk_length : Nat)
    (max_samples_per_ts : Option Int) :
    Except DartsError (SequentialDataset α) :=
  if (match covs with | none => false | some cv => targets.length != cv.length) then
    .error .validationError
  else
    match max_samples_per_ts with
    | some m => .ok ⟨targets, covs, input_chunk_length, output_chunk_length, m⟩
    | none =>
      if targets.isEmpty then .error .valueError
      else .ok ⟨targets, covs, input_chunk_length, output_chunk_length,
        (maxSeriesLength targets : Int) - output_chunk_length - input_chunk_length + 1⟩

/-- `SequentialDataset.__len__`: `self.ideal_nr_samples`, i.e.
`len(self.target_series) * self.max_samples_per_ts`. -/
def SequentialDataset.ideal_nr_samples (ds : SequentialDataset α) : Int :=
  (ds.target_series.length : Int) * ds.max_samples_per_ts

/-- Line 84: `ts_idx = idx // self.max_samples_per_ts` (Python floor
division). -/
def SequentialDataset.tsIdx (ds : SequentialDataset α) (idx : Int) : Int :=
  Int.fdiv idx ds.max_samples_per_ts

/-- Line 90: `n_samples_in_ts = len(target_values) - self.input_chunk_length
- self.output_chunk_length + 1`. -/
def SequentialDataset.nSamplesInTs (ds : SequentialDataset α) (ts_target : TSeries α) : Int :=
  (ts_target.length : Int) - ds.input_chunk_length - ds.output_chunk_length + 1

/-- Line 98: `lh_idx = (idx - (ts_idx * self.max_samples_per_ts)) %
n_samples_in_ts` (Python floor modulo). -/
def SequentialDataset.lhIdx (ds : SequentialDataset α) (idx n_samples_in_ts : Int) : Int :=
  Int.fmod (idx - ds.tsIdx idx * ds.max_samples_per_ts) n_samples_in_ts

/-- Line 101: `forecast_point_idx = self.output_chunk_length + lh_idx`. -/
def SequentialDataset.forecastPointIdx (ds : SequentialDataset α)
    (idx n_samples_in_ts : Int) : Int :=
  (ds.output_chunk_length : Int) + ds.lhIdx idx n_samples_in_ts

/-- Modelled from the spec: `_get_matching_index` is imported from
`darts/utils/data/timeseries_dataset.py`, which is not among the
sources; the spec's TimeAlignment contract (§4.2) is: locate the
covariate series' time-index entry equal to the target series'
time-index entry at offset-from-end `forecast_point_idx`, and return
the equivalent offset-from-end in the covariate series; fail with an
AlignmentError if no matching timestamp exists, or if the resulting
covariate-side slice (of `input_chunk_length` steps ending at that
offset) would extend before the start of the covariate series. -/
def getMatchingIndex (tgtTimes covTimes : List Int) (input_chunk_length : Nat)
    (forecast_point_idx : Int) : Except DartsError Int :=
  match pyGet tgtTimes ((tgtTimes.length : Int) - forecast_point_idx) with
  | none => .error .alignmentError
  | some t =>
    match covTimes.findIdx? (fun s => s = t) with
    | none => .error .alignmentError
    | some p =>
      let cov_fcast_idx : Int := (covTimes.length : Int) - p
      if (covTimes.length : Int) < cov_fcast_idx + input_chunk_length then
        .error .alignmentError
      else .ok cov_fcast_idx

/-- `SequentialDataset.__getitem__` (lines 82–124): resolves the flat
index to a series (Python list indexing, so negative indices wrap and
too-large ones raise `IndexError`), checks the series is long enough
(`raise_if_not`, the "too short" `outOfRangeError`), computes the
forecast point, slices past and future target windows (with the
special case for `forecast_point_idx == output_chunk_length` because
`-0` is not a usable upper bound), and, when covariates are
configured, aligns and slices the covariate window. -/
def SequentialDataset.getItem (ds : SequentialDataset α) (idx : Int) :
    Except DartsError (List α × List α × Option (List α)) :=
  if ds.max_samples_per_ts = 0 then .error .zeroDivisionError
  else
    match pyGet ds.target_series (ds.tsIdx idx) with
    | none => .error .indexError
    | some ts_target =>
      let target_values := ts_target.map Prod.snd
      let n_samples_in_ts := ds.nSamplesInTs ts_target
      if n_samples_in_ts < 1 then .error .outOfRangeError
      else
        let forecast_point_idx := ds.forecastPointIdx idx n_samples_in_ts
        let input_target := pySlice target_values
          (-(forecast_point_idx + ds.input_chunk_length)) (-forecast_point_idx)
        let output_target :=
          if forecast_point_idx = (ds.output_chunk_length : Int) then
            pySliceFrom target_values (-forecast_point_idx)
          else
            pySlice target_values (-forecast_point_idx)
              (-forecast_point_idx + ds.output_chunk_length)
        match ds.covariates with
        | none => .ok (input_target, output_target, none)
        | some covs =>
          match pyGet covs (ds.tsIdx idx) with
          | none => .error .indexError
          | some ts_covariate =>
            let covariate_values := ts_covariate.map Prod.snd
            match getMatchingIndex (ts_target.map Prod.fst) (ts_covariate.map Prod.fst)
                ds.input_chunk_length forecast_point_idx with
            | .error e => .error e
            | .ok cov_fcast_idx =>
              .ok (input_target, output_target,
                some (pySlice covariate_values
                  (-(cov_fcast_idx + ds.input_chunk_length)) (-cov_fcast_idx)))

/-! ### Kalman filter orchestration (`darts/models/filtering/kalman_filter.py`)

The recursive filter engine (`nfoursid.kalman.Kalman`) is an external
collaborator: it is modelled as an abstract transition system over a
state type `σ`, exposing exactly the pieces the orchestration code
reads: `step`, `y_filtereds[-1]`, `x_filtereds[-1]`, `p_filtereds[-1]`,
the observation matrix `state_space.c`, the measurement-noise matrix
`r`, and the dimensions `state_space.x_dim` / `state_space.y_dim`. -/

/-- Vector of rationals (one numpy row). -/
abbrev Vec := List ℚ

/-- Matrix of rationals. -/
abbrev Mat := List (List ℚ)

/-- `dotProd` of two rows (used by `matMul`). -/
def dotProd (a b : Vec) : ℚ :=
  (a.zip b).foldr (fun p acc => p.1 * p.2 + acc) 0

/-- Matrix product `A @ B`. -/
def matMul (A B : Mat) : Mat :=
  A.map (fun row => B.transpose.map (fun col => dotProd row col))

/-- Matrix sum `A + B`. -/
def matAdd (A B : Mat) : Mat :=
  (A.zip B).map (fun p => (p.1.zip p.2).map (fun q => q.1 + q.2))

/-- The external recursive filter engine (`nfoursid.kalman.Kalman`):
a deterministic transition system with observable projections. -/
structure KalmanEngine (σ : Type) where
  x_dim : Nat
  y_dim : Nat
  stepFn : σ → Vec → Vec → σ
  y_filtered : σ → Vec
  x_filtered : σ → Vec
  p_filtered : σ → Mat
  c : Mat
  r : Mat

/-- A deterministic `TimeSeries` view as used by `filter`: a time
index, a 2-d value array (time × component), and the
`is_deterministic` flag. -/
structure DTimeSeries where
  time_index : List Int
  values : List Vec
  is_deterministic : Bool
deriving Repr, DecidableEq

/-- `series.width`: the number of components. -/
def DTimeSeries.width (s : DTimeSeries) : Nat :=
  (s.values.headD []).length

/-- The value array produced by `filter`: either the deterministic
`(time, dim) `-shaped array built when `num_samples == 1`, or the
stochastic `(time, dim, num_samples)`-shaped array built otherwise. -/
inductive SampledStates where
  | deterministic : List Vec → SampledStates
  | stochastic : List Mat → SampledStates
deriving Repr, DecidableEq

/-- `TimeSeries.from_times_and_values(series.time_index, sampled_states)`. -/
structure FilterOutput where
  time_index : List Int
  sampled_states : SampledStates
deriving Repr, DecidableEq

/-- `darts.models.filtering.kalman_filter.KalmanFilter` state after
`__init__` (and possibly `fit`): the engine is stored together with
its initial recursive state; `kf = none` models the `self.kf`
attribute never having been assigned. -/
structure KalmanFilter (σ : Type) where
  dim_x : Nat
  dim_y : Nat
  kf : Option (KalmanEngine σ × σ)
  kf_provided : Bool

/-- `KalmanFilter.__init__`: with `kf=None` stores the requested
dimensions and `kf_provided = False` (leaving `self.kf` unassigned);
with a provided engine takes the dimensions from its state space and
sets `kf_provided = True`. -/
def KalmanFilter.init (dim_x dim_y : Nat) (kf : Option (KalmanEngine σ × σ)) :
    KalmanFilter σ :=
  match kf with
  | none => ⟨dim_x, dim_y, none, false⟩
  | some k => ⟨k.1.x_dim, k.1.y_dim, some k, true⟩

/-- `KalmanFilter.fit`: the external identification step is abstract;
its result (a fitted engine plus initial state) is assigned to
`self.kf`.  Note `kf_provided` is *not* changed. -/
def KalmanFilter.fit (kfm : KalmanFilter σ) (identified : KalmanEngine σ × σ) :
    KalmanFilter σ :=
  { kfm with kf := some identified }

/-- `u_values` (lines 148–151): an all-empty-rows array of matching
length when no covariates are given, else the covariate value array. -/
def uValuesOf (covariates : Option DTimeSeries) (y_values : List Vec) : List Vec :=
  match covariates with
  | none => y_values.map (fun _ => ([] : Vec))
  | some cov => cov.values

/-- The per-timestep loop of `filter` (lines 162–165): step the copied
engine once per observation row, consuming the matching covariate row
(`u_values[i, :]` raises `IndexError` when the covariate array is
shorter), and collect the sequence of post-step engine states. -/
def kalmanSteps (eng : KalmanEngine σ) (st : σ) :
    List Vec → List Vec → Except DartsError (List σ)
  | [], _ => .ok []
  | y :: ys, u :: us =>
    let st' := eng.stepFn st y u
    match kalmanSteps eng st' ys us with
    | .error e => .error e
    | .ok rest => .ok (st' :: rest)
  | _ :: _, [] => .error .indexError

/-- `cov_matrix = kf.state_space.c @ kf.p_filtereds[-1] @ kf.state_space.c.T + kf.r`
(line 173). -/
def covMatrix (eng : KalmanEngine σ) (st : σ) : Mat :=
  matAdd (matMul (matMul eng.c (eng.p_filtered st)) eng.c.transpose) eng.r

/-- `KalmanFilter.filter` (lines 116–188): requires a deterministic
series (`raise_if_not`); when `kf_provided` the series width must
equal `dim_y` (`raise_if_not`), otherwise that check is skipped and —
the unfitted-model check being `pass` — the code falls through to
`deepcopy(self.kf)`, an `AttributeError` when `self.kf` was never
assigned.  The loop stores, per timestep, `kf.y_filtereds[-1]` when
`num_samples == 1`, else `num_samples` draws from the external
Gaussian `sampler` at that mean and `covMatrix`. -/
def KalmanFilter.filter (kfm : KalmanFilter σ) (series : DTimeSeries)
    (covariates : Option DTimeSeries) (num_samples : Nat)
    (sampler : Vec → Mat → Nat → Mat) : Except DartsError FilterOutput :=
  if series.is_deterministic = false then .error .validationError
  else if kfm.kf_provided = true ∧ series.width ≠ kfm.dim_y then .error .validationError
  else
    match kfm.kf with
    | none => .error .attributeError
    | some (eng, st0) =>
      let y_values := series.values
      let u_values := uValuesOf covariates y_values
      match kalmanSteps eng st0 y_values u_values with
      | .error e => .error e
      | .ok states =>
        let sampled_states :=
          if num_samples = 1 then
            SampledStates.deterministic (states.map (fun st => eng.y_filtered st))
          else
            SampledStates.stochastic (states.map (fun st =>
              sampler (eng.y_filtered st) (covMatrix eng st) num_samples))
        .ok ⟨series.time_index, sampled_states⟩

/-! ### Helper lemmas on the Python sequence semantics -/

theorem pyBound_le (n : Nat) (i : Int) : pyBound n i ≤ n := by
  unfold pyBound; split <;> omega

theorem pySlice_length (xs : List α) (a b : Int) :
    (pySlice xs a b).length = pyBound xs.length b - pyBound xs.length a := by
  unfold pySlice
  rw [List.length_drop, List.length_take]
  have := pyBound_le xs.length b
  omega

/-- Length of a window slice `xs[-(k+m):-k]` when it is fully in
range: exactly `m` elements. -/
theorem pySlice_window_length (xs : List α) (k m : Int) (hk : 1 ≤ k) (hm : 0 ≤ m)
    (hlen : k + m ≤ (xs.length : Int)) :
    (pySlice xs (-(k + m)) (-k)).length = m.toNat := by
  rw [pySlice_length]
  unfold pyBound
  split_ifs <;> omega

/-- Length of a window slice `xs[-k:-k+m]` when `0 ≤ m < k ≤ |xs|`:
exactly `m` elements. -/
theorem pySlice_window_length2 (xs : List α) (k m : Int) (hm : 0 ≤ m) (hmk : m < k)
    (hlen : k ≤ (xs.length : Int)) :
    (pySlice xs (-k) (-k + m)).length = m.toNat := by
  rw [pySlice_length]
  unfold pyBound
  split_ifs <;> omega

/-- Length of a tail slice `xs[-k:]` when `1 ≤ k ≤ |xs|`: exactly `k`
elements. -/
theorem pySliceFrom_length (xs : List α) (k : Int) (hk : 1 ≤ k)
    (hlen : k ≤ (xs.length : Int)) :
    (pySliceFrom xs (-k)).length = k.toNat := by
  unfold pySliceFrom pyBound
  rw [List.length_drop]
  split_ifs <;> omega

theorem pyGet_eq_some_of_lt (xs : List α) (i : Int) (h0 : 0 ≤ i) (h1 : i < xs.length) :
    ∃ t, pyGet xs i = some t := by
  unfold pyGet
  rw [if_neg (by omega), if_neg (by omega)]
  have hlt : i.toNat < xs.length := by omega
  exact ⟨xs.get ⟨i.toNat, hlt⟩, List.get?_eq_get hlt⟩

theorem pyGet_eq_none_of_ge (xs : List α) (i : Int) (h : (xs.length : Int) ≤ i) :
    pyGet xs i = none := by
  unfold pyGet
  rw [if_neg (by omega), if_neg (by omega)]
  exact List.get?_eq_none.mpr (by omega)

/-- Python's `xs[-1]` is the last element. -/
theorem pyGet_neg_one (xs : List α) (t : α) (h : xs.getLast? = some t) :
    pyGet xs (-1) = some t := by
  have hne : xs ≠ [] := by
    intro he; rw [he] at h; exact Option.noConfusion h
  have hlen : 1 ≤ xs.length := List.length_pos.mpr hne
  unfold pyGet
  have h1 : (if (-1:ℤ) < 0 then (xs.length : Int) + -1 else -1) = (xs.length : Int) + -1 :=
    if_pos (by norm_num)
  rw [h1, if_neg (by omega), List.get?_eq_getElem?]
  have h2 : ((xs.length : Int) + -1).toNat = xs.length - 1 := by omega
  rw [h2, ← List.getLast?_eq_getElem?, h]

/-! ### Helper lemmas on the index arithmetic of `__getitem__` -/

/-- Bounds of `lh_idx`: Python's `%` with a positive modulus always
lands in `[0, n_samples_in_ts)`. -/
theorem lhIdx_bounds (ds : SequentialDataset α) (idx n : Int) (hn : 1 ≤ n) :
    0 ≤ ds.lhIdx idx n ∧ ds.lhIdx idx n < n := by
  unfold SequentialDataset.lhIdx
  exact ⟨Int.fmod_nonneg' _ (by omega), Int.fmod_lt_of_pos _ (by omega)⟩

/-- Bounds of `forecast_point_idx` when the series is long enough:
`output_chunk_length ≤ forecast_point_idx` and
`forecast_point_idx + input_chunk_length ≤ len(series)`. -/
theorem forecastPointIdx_bounds (ds : SequentialDataset α) (idx : Int) (ts : TSeries α)
    (hn : 1 ≤ ds.nSamplesInTs ts) :
    (ds.output_chunk_length : Int) ≤ ds.forecastPointIdx idx (ds.nSamplesInTs ts) ∧
    ds.forecastPointIdx idx (ds.nSamplesInTs ts) + ds.input_chunk_length ≤ (ts.length : Int) := by
  obtain ⟨h0, h1⟩ := lhIdx_bounds ds idx (ds.nSamplesInTs ts) hn
  have hEq : ds.nSamplesInTs ts =
      (ts.length : Int) - ds.input_chunk_length - ds.output_chunk_length + 1 := rfl
  unfold SequentialDataset.forecastPointIdx
  omega

/-- Evaluation of `__getitem__` on the no-covariates success path. -/
theorem getItem_eval_no_cov (ds : SequentialDataset α) (idx : Int) (ts_target : TSeries α)
    (hcap : ds.max_samples_per_ts ≠ 0)
    (hts : pyGet ds.target_series (ds.tsIdx idx) = some ts_target)
    (hn : 1 ≤ ds.nSamplesInTs ts_target)
    (hcov : ds.covariates = none) :
    ds.getItem idx = .ok
      (pySlice (ts_target.map Prod.snd)
        (-(ds.forecastPointIdx idx (ds.nSamplesInTs ts_target) + ds.input_chunk_length))
        (-(ds.forecastPointIdx idx (ds.nSamplesInTs ts_target))),
       (if ds.forecastPointIdx idx (ds.nSamplesInTs ts_target) = (ds.output_chunk_length : Int)
        then pySliceFrom (ts_target.map Prod.snd)
          (-(ds.forecastPointIdx idx (ds.nSamplesInTs ts_target)))
        else pySlice (ts_target.map Prod.snd)
          (-(ds.forecastPointIdx idx (ds.nSamplesInTs ts_target)))
          (-(ds.forecastPointIdx idx (ds.nSamplesInTs ts_target)) + ds.output_chunk_length)),
       none) := by
  unfold SequentialDataset.getItem
  rw [if_neg hcap, hts, hcov]
  dsimp only
  rw [if_neg (show ¬ ds.nSamplesInTs ts_target < 1 by omega)]

/-- Evaluation of `__getitem__` on the "series too short" path. -/
theorem getItem_eval_too_short (ds : SequentialDataset α) (idx : Int) (ts_target : TSeries α)
    (hcap : ds.max_samples_per_ts ≠ 0)
    (hts : pyGet ds.target_series (ds.tsIdx idx) = some ts_target)
    (hn : ds.nSamplesInTs ts_target < 1) :
    ds.getItem idx = .error .outOfRangeError := by
  unfold SequentialDataset.getItem
  rw [if_neg hcap, hts]
  dsimp only
  rw [if_pos hn]

/-- Evaluation of `__getitem__` when the series lookup itself fails
(a plain Python `IndexError`, before any range validation). -/
theorem getItem_eval_no_series (ds : SequentialDataset α) (idx : Int)
    (hcap : ds.max_samples_per_ts ≠ 0)
    (hts : pyGet ds.target_series (ds.tsIdx idx) = none) :
    ds.getItem idx = .error .indexError := by
  unfold SequentialDataset.getItem
  rw [if_neg hcap, hts]

/-- Inversion of a successful `__getitem__`: the target series
resolved, was long enough, and the past/future windows are the slices
at the computed forecast point. -/
theorem getItem_ok_inv (ds : SequentialDataset α) (idx : Int)
    (pt ft : List α) (c : Option (List α))
    (h : ds.getItem idx = .ok (pt, ft, c)) :
    ∃ ts_target, pyGet ds.target_series (ds.tsIdx idx) = some ts_target ∧
      1 ≤ ds.nSamplesInTs ts_target ∧
      pt = pySlice (ts_target.map Prod.snd)
        (-(ds.forecastPointIdx idx (ds.nSamplesInTs ts_target) + ds.input_chunk_length))
        (-(ds.forecastPointIdx idx (ds.nSamplesInTs ts_target))) ∧
      ft = (if ds.forecastPointIdx idx (ds.nSamplesInTs ts_target) = (ds.output_chunk_length : Int)
        then pySliceFrom (ts_target.map Prod.snd)
          (-(ds.forecastPointIdx idx (ds.nSamplesInTs ts_target)))
        else pySlice (ts_target.map Prod.snd)
          (-(ds.forecastPointIdx idx (ds.nSamplesInTs ts_target)))
          (-(ds.forecastPointIdx idx (ds.nSamplesInTs ts_target)) + ds.output_chunk_length)) := by
  unfold SequentialDataset.getItem at h
  dsimp only at h
  split at h
  · exact Except.noConfusion h
  split at h
  · exact Except.noConfusion h
  next ts_target heq =>
  split at h
  · exact Except.noConfusion h
  next hn =>
  refine ⟨ts_target, heq, by omega, ?_⟩
  split at h
  · rw [Except.ok.injEq, Prod.mk.injEq, Prod.mk.injEq] at h
    exact ⟨h.1.symm, h.2.1.symm⟩
  · split at h
    · exact Except.noConfusion h
    split at h
    · exact Except.noConfusion h
    · rw [Except.ok.injEq, Prod.mk.injEq, Prod.mk.injEq] at h
      exact ⟨h.1.symm, h.2.1.symm⟩

/-- Inversion of a successful TimeAlignment: the returned
offset-from-end leaves the covariate window fully inside the
covariate series. -/
theorem getMatchingIndex_ok_inv (tgtTimes covTimes : List Int) (icl : Nat) (fpi cfi : Int)
    (h : getMatchingIndex tgtTimes covTimes icl fpi = .ok cfi) :
    1 ≤ cfi ∧ cfi + icl ≤ (covTimes.length : Int) := by
  unfold getMatchingIndex at h
  split at h
  · exact Except.noConfusion h
  next t heq =>
  split at h
  · exact Except.noConfusion h
  next p heqp =>
  dsimp only at h
  split at h
  · exact Except.noConfusion h
  next hle =>
  rw [Except.ok.injEq] at h
  have hp : p < covTimes.length := (List.findIdx?_eq_some_iff_findIdx_eq.mp heqp).1
  omega

/-- Inversion of a successful `__getitem__` when covariates are
configured: the covariate slot holds the aligned covariate slice. -/
theorem getItem_ok_cov_inv (ds : SequentialDataset α) (idx : Int) (cv : List (TSeries α))
    (pt ft : List α) (c : Option (List α))
    (hcov : ds.covariates = some cv)
    (h : ds.getItem idx = .ok (pt, ft, c)) :
    ∃ ts_target ts_covariate cov_fcast_idx,
      pyGet ds.target_series (ds.tsIdx idx) = some ts_target ∧
      pyGet cv (ds.tsIdx idx) = some ts_covariate ∧
      getMatchingIndex (ts_target.map Prod.fst) (ts_covariate.map Prod.fst)
        ds.input_chunk_length (ds.forecastPointIdx idx (ds.nSamplesInTs ts_target)) =
        .ok cov_fcast_idx ∧
      c = some (pySlice (ts_covariate.map Prod.snd)
        (-(cov_fcast_idx + ds.input_chunk_length)) (-cov_fcast_idx)) := by
  unfold SequentialDataset.getItem at h
  rw [hcov] at h
  dsimp only at h
  split at h
  · exact Except.noConfusion h
  split at h
  · exact Except.noConfusion h
  next ts_target heq =>
  split at h
  · exact Except.noConfusion h
  next hn =>
  split at h
  · exact Except.noConfusion h
  next ts_covariate heqc =>
  split at h
  · exact Except.noConfusion h
  next cfi heqm =>
  rw [Except.ok.injEq, Prod.mk.injEq, Prod.mk.injEq] at h
  exact ⟨ts_target, ts_covariate, cfi, heq, heqc, heqm, h.2.2.symm⟩

/-- The filter loop produces one state per observation row. -/
theorem kalmanSteps_length (eng : KalmanEngine σ) (st : σ) (ys us : List Vec)
    (states : List σ) (h : kalmanSteps eng st ys us = .ok states) :
    states.length = ys.length := by
  induction ys generalizing st us states with
  | nil =>
    unfold kalmanSteps at h
    rw [Except.ok.injEq] at h
    subst h
    rfl
  | cons y ys ih =>
    cases us with
    | nil => exact Except.noConfusion h
    | cons u us =>
      unfold kalmanSteps at h
      dsimp only at h
      split at h
      · exact Except.noConfusion h
      next rest hrest =>
      rw [Except.ok.injEq] at h
      subst h
      simp [ih _ _ _ hrest]

/-! ### Concrete fixtures used by the witnesses -/

/-- A concrete target series of length 5. -/
def tsA : TSeries Int := [(0, 10), (1, 11), (2, 12), (3, 13), (4, 14)]

/-- A concrete dataset: one target series of length 5, no covariates,
`input_chunk_length = 2`, `output_chunk_length = 1`,
`max_samples_per_ts = 3`. -/
def dsA : SequentialDataset Int := ⟨[tsA], none, 2, 1, 3⟩

/-! ### The claims -/

/-- C1: for every flat index in range whose resolved target series is
long enough, `__getitem__` resolves
`series_index = flat_index // EffectiveCapacity`,
`local_index = (flat_index − series_index × EffectiveCapacity) mod n_samples_in_series`
with `n_samples_in_series = len − input_chunk_length − output_chunk_length + 1`,
and `forecast_point_offset = output_chunk_length + local_index`, with
`0 ≤ local_index < n_samples_in_series`. -/
theorem C1_flat_index_resolution (ds : SequentialDataset α) (idx : Int)
    (h0 : 0 ≤ idx) (h1 : idx < ds.ideal_nr_samples)
    (ts_target : TSeries α)
    (hts : pyGet ds.target_series (ds.tsIdx idx) = some ts_target)
    (hn : 1 ≤ ds.nSamplesInTs ts_target) :
    ds.tsIdx idx = Int.fdiv idx ds.max_samples_per_ts ∧
    ds.nSamplesInTs ts_target =
      (ts_target.length : Int) - ds.input_chunk_length - ds.output_chunk_length + 1 ∧
    ds.lhIdx idx (ds.nSamplesInTs ts_target) =
      Int.fmod (idx - ds.tsIdx idx * ds.max_samples_per_ts) (ds.nSamplesInTs ts_target) ∧
    ds.forecastPointIdx idx (ds.nSamplesInTs ts_target) =
      (ds.output_chunk_length : Int) + ds.lhIdx idx (ds.nSamplesInTs ts_target) ∧
    0 ≤ ds.lhIdx idx (ds.nSamplesInTs ts_target) ∧
    ds.lhIdx idx (ds.nSamplesInTs ts_target) < ds.nSamplesInTs ts_target := by
  obtain ⟨hl0, hl1⟩ := lhIdx_bounds ds idx (ds.nSamplesInTs ts_target) hn
  exact ⟨rfl, rfl, rfl, rfl, hl0, hl1⟩

/-- Witness for C1 at `dsA`, flat index 1. -/
theorem C1_witness :
    (0:Int) ≤ 1 ∧ (1:Int) < dsA.ideal_nr_samples ∧
    pyGet dsA.target_series (dsA.tsIdx 1) = some tsA ∧
    1 ≤ dsA.nSamplesInTs tsA ∧
    (0 ≤ dsA.lhIdx 1 (dsA.nSamplesInTs tsA) ∧
      dsA.lhIdx 1 (dsA.nSamplesInTs tsA) < dsA.nSamplesInTs tsA) :=
  ⟨by decide, by decide, by decide, by decide,
    (C1_flat_index_resolution dsA 1 (by decide) (by decide) tsA (by decide)
      (by decide)).2.2.2.2⟩

/-- C2: every successful `__getitem__` (under the WindowConfig
invariant that both chunk lengths are positive) returns a past window
of length exactly `input_chunk_length` and a future window of length
exactly `output_chunk_length`, including the special-case branch at
`forecast_point_idx == output_chunk_length`. -/
theorem C2_window_lengths (ds : SequentialDataset α) (idx : Int)
    (pt ft : List α) (c : Option (List α))
    (hicl : 1 ≤ ds.input_chunk_length) (hocl : 1 ≤ ds.output_chunk_length)
    (h : ds.getItem idx = .ok (pt, ft, c)) :
    pt.length = ds.input_chunk_length ∧ ft.length = ds.output_chunk_length := by
  obtain ⟨ts, hts, hn, hpt, hft⟩ := getItem_ok_inv ds idx pt ft c h
  obtain ⟨hb1, hb2⟩ := forecastPointIdx_bounds ds idx ts hn
  have hlen : ((ts.map Prod.snd).length : Int) = (ts.length : Int) := by
    rw [List.length_map]
  constructor
  · rw [hpt, pySlice_window_length _ (ds.forecastPointIdx idx (ds.nSamplesInTs ts))
      (ds.input_chunk_length : Int) (by omega) (by omega) (by omega)]
    omega
  · rw [hft]
    split_ifs with hc
    · rw [pySliceFrom_length _ (ds.forecastPointIdx idx (ds.nSamplesInTs ts))
        (by omega) (by omega)]
      omega
    · rw [pySlice_window_length2 _ (ds.forecastPointIdx idx (ds.nSamplesInTs ts))
        (ds.output_chunk_length : Int) (by omega) (by omega) (by omega)]
      omega

/-- Witness for C2 at `dsA`, flat index 0 (this index takes the
special-case branch: `forecast_point_idx == output_chunk_length`). -/
theorem C2_witness :
    dsA.getItem 0 = .ok ([12, 13], [14], none) ∧
    ([12, 13] : List Int).length = dsA.input_chunk_length ∧
    ([14] : List Int).length = dsA.output_chunk_length :=
  ⟨rfl,
    (C2_window_lengths dsA 0 [12, 13] [14] none (by decide) (by decide) rfl).1,
    (C2_window_lengths dsA 0 [12, 13] [14] none (by decide) (by decide) rfl).2⟩

/-- C3: for a dataset without covariates and a flat index in
`[0, length())`, `__getitem__` fails with the "series too short"
OutOfRangeError iff the resolved target series is shorter than
`input_chunk_length + output_chunk_length`; when it is long enough the
access succeeds (even when `max_samples_per_ts` exceeds the series'
true capacity — the modulo guarantees a valid local index).
`__getitem__` is a pure function of the dataset and the index, so the
dataset state is trivially unchanged on error. -/
theorem C3_too_short_iff (ds : SequentialDataset α) (idx : Int)
    (hcov : ds.covariates = none)
    (h0 : 0 ≤ idx) (h1 : idx < ds.ideal_nr_samples) :
    ∃ ts_target, pyGet ds.target_series (ds.tsIdx idx) = some ts_target ∧
      (ds.getItem idx = .error .outOfRangeError ↔
        ts_target.length < ds.input_chunk_length + ds.output_chunk_length) ∧
      (ds.input_chunk_length + ds.output_chunk_length ≤ ts_target.length →
        ∃ pt ft, ds.getItem idx = .ok (pt, ft, none)) := by
  have h1' : idx < (ds.target_series.length : Int) * ds.max_samples_per_ts := h1
  have hcap : 0 < ds.max_samples_per_ts := by
    by_contra hle
    push_neg at hle
    have hmul : (ds.target_series.length : Int) * ds.max_samples_per_ts ≤ 0 :=
      mul_nonpos_iff.mpr (Or.inl ⟨Int.natCast_nonneg _, hle⟩)
    omega
  have htsIdx : 0 ≤ ds.tsIdx idx ∧ ds.tsIdx idx < (ds.target_series.length : Int) := by
    unfold SequentialDataset.tsIdx
    rw [Int.fdiv_eq_ediv _ (by omega)]
    exact ⟨Int.ediv_nonneg h0 (by omega), Int.ediv_lt_of_lt_mul hcap h1'⟩
  obtain ⟨ts, hts⟩ := pyGet_eq_some_of_lt ds.target_series (ds.tsIdx idx) htsIdx.1 htsIdx.2
  have hdef : ds.nSamplesInTs ts =
      (ts.length : Int) - ds.input_chunk_length - ds.output_chunk_length + 1 := rfl
  refine ⟨ts, hts, ⟨?_, ?_⟩, ?_⟩
  · intro herr
    by_contra hlong
    push_neg at hlong
    rw [getItem_eval_no_cov ds idx ts (by omega) hts (by omega) hcov] at herr
    exact Except.noConfusion herr
  · intro hshort
    exact getItem_eval_too_short ds idx ts (by omega) hts (by omega)
  · intro hlong
    exact ⟨_, _, getItem_eval_no_cov ds idx ts (by omega) hts (by omega) hcov⟩

/-- Witness for C3 at `dsA`, flat index 2 (series long enough, so the
access succeeds and no OutOfRangeError occurs). -/
theorem C3_witness :
    dsA.covariates = none ∧ (0:Int) ≤ 2 ∧ (2:Int) < dsA.ideal_nr_samples ∧
    ∃ ts_target, pyGet dsA.target_series (dsA.tsIdx 2) = some ts_target ∧
      (dsA.getItem 2 = .error .outOfRangeError ↔
        ts_target.length < dsA.input_chunk_length + dsA.output_chunk_length) ∧
      (dsA.input_chunk_length + dsA.output_chunk_length ≤ ts_target.length →
        ∃ pt ft, dsA.getItem 2 = .ok (pt, ft, none)) :=
  ⟨rfl, by decide, by decide, C3_too_short_iff dsA 2 rfl (by decide) (by decide)⟩

/-- C9: `__getitem__` performs no range validation of the flat index:
a negative index in `[-max_samples_per_ts, -1]` floor-divides to
`ts_idx = -1`, which Python list indexing resolves to the *last*
series, and the access succeeds (when that series is long enough and
no covariates are configured); an index `≥ len(dataset)` resolves to
`ts_idx ≥ len(target_series)` and fails with a plain `IndexError`
from the list lookup, not an OutOfRangeError. -/
theorem C9_no_index_validation (ds : SequentialDataset α) :
    (∀ idx : Int, ∀ ts_last : TSeries α, ds.covariates = none →
      ds.target_series.getLast? = some ts_last →
      1 ≤ ds.nSamplesInTs ts_last →
      -ds.max_samples_per_ts ≤ idx → idx ≤ -1 →
      ds.tsIdx idx = -1 ∧
      pyGet ds.target_series (ds.tsIdx idx) = some ts_last ∧
      ∃ pt ft, ds.getItem idx = .ok (pt, ft, none)) ∧
    (∀ idx : Int, 1 ≤ ds.max_samples_per_ts → ds.ideal_nr_samples ≤ idx →
      ds.getItem idx = .error .indexError) := by
  constructor
  · intro idx ts_last hcov hlast hn hlo hhi
    have hcap : 1 ≤ ds.max_samples_per_ts := by omega
    have htsIdx : ds.tsIdx idx = -1 := by
      unfold SequentialDataset.tsIdx
      rw [Int.fdiv_eq_ediv _ (by omega)]
      have hlt : idx / ds.max_samples_per_ts < 0 :=
        Int.ediv_lt_of_lt_mul (by omega)
          (show idx < 0 * ds.max_samples_per_ts by omega)
      have hge : -1 ≤ idx / ds.max_samples_per_ts :=
        (Int.le_ediv_iff_mul_le (by omega)).mpr
          (show -1 * ds.max_samples_per_ts ≤ idx by omega)
      omega
    have hget : pyGet ds.target_series (ds.tsIdx idx) = some ts_last := by
      rw [htsIdx]
      exact pyGet_neg_one _ _ hlast
    exact ⟨htsIdx, hget, _, _, getItem_eval_no_cov ds idx ts_last (by omega) hget hn hcov⟩
  · intro idx hcap hge
    have hge' : (ds.target_series.length : Int) * ds.max_samples_per_ts ≤ idx := hge
    have htsIdx : (ds.target_series.length : Int) ≤ ds.tsIdx idx := by
      unfold SequentialDataset.tsIdx
      rw [Int.fdiv_eq_ediv _ (by omega)]
      exact (Int.le_ediv_iff_mul_le (by omega)).mpr hge'
    exact getItem_eval_no_series ds idx (by omega) (pyGet_eq_none_of_ge _ _ htsIdx)

/-- Witness for C9 at `dsA`: flat index `-2` succeeds against the last
(only) series, and flat index 7 ≥ 3 = `len(dsA)` gives an
`IndexError`. -/
theorem C9_witness :
    (dsA.tsIdx (-2) = -1 ∧
      pyGet dsA.target_series (dsA.tsIdx (-2)) = some tsA ∧
      ∃ pt ft, dsA.getItem (-2) = .ok (pt, ft, none)) ∧
    dsA.getItem 7 = .error .indexError :=
  ⟨(C9_no_index_validation dsA).1 (-2) tsA rfl (by decide) (by decide) (by decide)
      (by decide),
    (C9_no_index_validation dsA).2 7 (by decide) (by decide)⟩

/-- C4: `__len__` always returns
`len(target_series) * EffectiveCapacity`, where EffectiveCapacity is
the supplied cap when one is given (stored with no validation against
per-series lengths) and otherwise
`max(len(ts)) - output_chunk_length - input_chunk_length + 1`,
computed once at construction. -/
theorem C4_length_formula (targets : List (TSeries α)) (covs : Option (List (TSeries α)))
    (icl ocl : Nat) (cap : Option Int) (ds : SequentialDataset α)
    (h : SequentialDataset.make targets covs icl ocl cap = .ok ds) :
    ds.max_samples_per_ts = (match cap with
      | some m => m
      | none => (maxSeriesLength targets : Int) - ocl - icl + 1) ∧
    ds.ideal_nr_samples = (targets.length : Int) * (match cap with
      | some m => m
      | none => (maxSeriesLength targets : Int) - ocl - icl + 1) := by
  unfold SequentialDataset.make at h
  split at h
  · exact Except.noConfusion h
  cases cap with
  | some m =>
    dsimp only at h
    rw [Except.ok.injEq] at h
    subst h
    exact ⟨rfl, rfl⟩
  | none =>
    dsimp only at h
    split at h
    · exact Except.noConfusion h
    rw [Except.ok.injEq] at h
    subst h
    exact ⟨rfl, rfl⟩

/-- Witness for C4: an uncapped construction over `[tsA]` (max length
5, chunks 2 and 1) yields EffectiveCapacity 3 and length 3. -/
theorem C4_witness :
    SequentialDataset.make [tsA] none 2 1 none =
      .ok (⟨[tsA], none, 2, 1, 3⟩ : SequentialDataset Int) ∧
    (⟨[tsA], none, 2, 1, 3⟩ : SequentialDataset Int).max_samples_per_ts = 3 ∧
    (⟨[tsA], none, 2, 1, 3⟩ : SequentialDataset Int).ideal_nr_samples = 1 * 3 :=
  ⟨rfl,
    (C4_length_formula [tsA] none 2 1 none _ rfl).1,
    (C4_length_formula [tsA] none 2 1 none _ rfl).2⟩

/-- C5: when covariates are configured, a successful `__getitem__`
always carries a covariate window of length exactly
`input_chunk_length`: the alignment step (modelled from the spec, see
`getMatchingIndex`) only succeeds when the covariate window is fully
inside the covariate series, so a truncated slice is never returned
silently. -/
theorem C5_covariate_window_exact (ds : SequentialDataset α) (idx : Int)
    (cv : List (TSeries α)) (pt ft : List α) (c : Option (List α))
    (hcov : ds.covariates = some cv)
    (h : ds.getItem idx = .ok (pt, ft, c)) :
    ∃ pc, c = some pc ∧ pc.length = ds.input_chunk_length := by
  obtain ⟨ts, tc, cfi, hts, htc, hm, hc⟩ := getItem_ok_cov_inv ds idx cv pt ft c hcov h
  obtain ⟨h1, h2⟩ := getMatchingIndex_ok_inv _ _ _ _ _ hm
  have hl : cfi + (ds.input_chunk_length : Int) ≤ ((tc.map Prod.snd).length : Int) := by
    simp only [List.length_map] at h2 ⊢
    omega
  refine ⟨_, hc, ?_⟩
  rw [pySlice_window_length _ cfi (ds.input_chunk_length : Int) h1 (by omega) hl]
  omega

/-- A concrete covariate series matching `tsB`'s time index. -/
def tsB : TSeries Int := [(0, 10), (1, 11), (2, 12), (3, 13)]

/-- A concrete covariate series over the same time index as `tsB`. -/
def tsBcov : TSeries Int := [(0, 20), (1, 21), (2, 22), (3, 23)]

/-- A concrete dataset with covariates: `input_chunk_length = 2`,
`output_chunk_length = 1`, `max_samples_per_ts = 1`. -/
def dsB : SequentialDataset Int := ⟨[tsB], some [tsBcov], 2, 1, 1⟩

/-- Witness for C5 at `dsB`, flat index 0: the covariate slot holds
`[21, 22]`, of length 2 = `input_chunk_length`. -/
theorem C5_witness :
    dsB.covariates = some [tsBcov] ∧
    dsB.getItem 0 = .ok ([11, 12], [13], some [21, 22]) ∧
    ∃ pc, (some [21, 22] : Option (List Int)) = some pc ∧
      pc.length = dsB.input_chunk_length :=
  ⟨rfl, rfl, C5_covariate_window_exact dsB 0 [tsBcov] [11, 12] [13] (some [21, 22]) rfl rfl⟩

/-- C6 counterexample: construction with `input_chunk_length = 12`,
`output_chunk_length = 1` over a single series of length 1 and no cap
*succeeds*, storing the non-positive EffectiveCapacity −11, instead of
validating the chunk lengths or failing fast with a ValidationError
when the eager scan finds EffectiveCapacity < 1. -/
theorem C6_counterexample :
    SequentialDataset.make (α := Int) [[(0, 5)]] none 12 1 none =
      .ok ⟨[[(0, 5)]], none, 12, 1, -11⟩ ∧ (-11 : Int) < 1 :=
  ⟨rfl, by norm_num⟩

/-- C6 amended: `__init__` performs no chunk-length validation and no
capacity validation at all; with no covariates and a non-empty target
collection, uncapped construction always succeeds, eagerly storing
`max(len) - output_chunk_length - input_chunk_length + 1` as
EffectiveCapacity even when it is < 1 (too-short series surface only
at access time, as OutOfRangeError). -/
theorem C6_no_construction_validation (targets : List (TSeries α)) (icl ocl : Nat)
    (hne : targets ≠ []) :
    SequentialDataset.make targets none icl ocl none =
      .ok ⟨targets, none, icl, ocl,
        (maxSeriesLength targets : Int) - ocl - icl + 1⟩ := by
  unfold SequentialDataset.make
  rw [if_neg (by simp)]
  dsimp only
  rw [if_neg (by simp [hne])]

/-- Witness for C6's amended statement: uncapped construction over a
series of length 1 with chunks 12 and 1 succeeds (capacity −11). -/
theorem C6_witness :
    ([[(0, 5)]] : List (TSeries Int)) ≠ [] ∧
    SequentialDataset.make (α := Int) [[(0, 5)]] none 12 1 none =
      .ok ⟨[[(0, 5)]], none, 12, 1, -11⟩ :=
  ⟨by decide, C6_no_construction_validation [[(0, 5)]] 12 1 (by decide)⟩

/-! ### Kalman fixtures -/

/-- A concrete engine with state dimension 2 and output dimension 1;
its state is a step counter, so the filtered output estimate
(`y_filtereds[-1]`, width 1) and the filtered state estimate
(`x_filtereds[-1]`, width 2) are distinguishable. -/
def engC : KalmanEngine Nat where
  x_dim := 2
  y_dim := 1
  stepFn := fun st _ _ => st + 1
  y_filtered := fun st => [(st : ℚ)]
  x_filtered := fun st => [(st : ℚ), (st : ℚ) + 1]
  p_filtered := fun _ => [[1, 0], [0, 1]]
  c := [[1, 0]]
  r := [[1]]

/-- A `KalmanFilter` constructed with the engine `engC` provided. -/
def kfC : KalmanFilter Nat := KalmanFilter.init 0 0 (some (engC, 0))

/-- A deterministic 3-step observation series of width 1. -/
def seriesC : DTimeSeries := ⟨[0, 1, 2], [[5], [6], [7]], true⟩

/-! ### Kalman claims -/

/-- C7: at each timestep `filter` stores `kf.y_filtereds[-1]` — the
filtered *observation-space* estimate, of width `dim_y` — not the
filtered mean state vector `x` of width `dim_x` promised by the
docstring ("A stochastic TimeSeries of state values, of dimension
dim_x").  Evaluated here on the `engC` fixture: the output rows are
the `y_filtered` values, of width `dim_y = 1 ≠ 2 = dim_x`, and differ
from the `x_filtered` state vectors. -/
theorem C7_observation_not_state :
    kfC.filter seriesC none 1 (fun _ _ _ => []) =
      .ok ⟨seriesC.time_index,
        .deterministic [engC.y_filtered 1, engC.y_filtered 2, engC.y_filtered 3]⟩ ∧
    (engC.y_filtered 1).length = kfC.dim_y ∧
    (engC.x_filtered 1).length = kfC.dim_x ∧
    kfC.dim_y ≠ kfC.dim_x ∧
    engC.y_filtered 1 ≠ engC.x_filtered 1 :=
  ⟨rfl, rfl, rfl, by decide, by decide⟩

/-- C8: with `num_samples = 1`, a successful `filter` call over a
deterministic series returns a series over the *same* time index,
containing exactly one value per input step, each value being the
filter's mean (`y_filtereds[-1]`) at that step — and the result does
not depend on the Gaussian sampler, i.e. no random sampling is
performed. -/
theorem C8_num_samples_one_deterministic (kfm : KalmanFilter σ) (series : DTimeSeries)
    (covariates : Option DTimeSeries) (sampler sampler' : Vec → Mat → Nat → Mat)
    (eng : KalmanEngine σ) (st0 : σ) (out : FilterOutput)
    (hkf : kfm.kf = some (eng, st0))
    (h : kfm.filter series covariates 1 sampler = .ok out) :
    out.time_index = series.time_index ∧
    (∃ states, kalmanSteps eng st0 series.values (uValuesOf covariates series.values) =
        .ok states ∧
      states.length = series.values.length ∧
      out.sampled_states = .deterministic (states.map (fun st => eng.y_filtered st))) ∧
    kfm.filter series covariates 1 sampler' = .ok out := by
  unfold KalmanFilter.filter at h ⊢
  split at h
  · exact Except.noConfusion h
  next hdet =>
  split at h
  · exact Except.noConfusion h
  next hdy =>
  rw [hkf] at h
  rw [if_neg hdet, if_neg hdy, hkf]
  dsimp only at h ⊢
  split at h
  · exact Except.noConfusion h
  next states hsteps =>
  rw [if_pos rfl] at h
  rw [Except.ok.injEq] at h
  subst h
  refine ⟨rfl, ⟨states, hsteps, kalmanSteps_length _ _ _ _ _ hsteps, rfl⟩, ?_⟩
  rw [if_pos rfl]

/-- Witness for C8 on the `engC` fixture: two different samplers give
the same deterministic output. -/
theorem C8_witness :
    kfC.filter seriesC none 1 (fun _ _ _ => []) =
      .ok ⟨[0, 1, 2], .deterministic [[1], [2], [3]]⟩ ∧
    (⟨[0, 1, 2], .deterministic [[1], [2], [3]]⟩ : FilterOutput).time_index =
      seriesC.time_index ∧
    kfC.filter seriesC none 1 (fun m _ _ => [m]) =
      .ok ⟨[0, 1, 2], .deterministic [[1], [2], [3]]⟩ :=
  ⟨rfl,
    (C8_num_samples_one_deterministic kfC seriesC none (fun _ _ _ => []) (fun m _ _ => [m])
      engC 0 _ rfl rfl).1,
    (C8_num_samples_one_deterministic kfC seriesC none (fun _ _ _ => []) (fun m _ _ => [m])
      engC 0 _ rfl rfl).2.2⟩

/-- C10: calling `filter` on an estimator that was neither fitted nor
given a model raises no ValidationError at call entry — the
unfitted-model branch is `pass` and the `dim_y` width check is in the
`else` branch, hence skipped — and instead fails at
`deepcopy(self.kf)` because the attribute was never assigned
(an `AttributeError`). -/
theorem C10_unfitted_no_entry_validation {σ : Type} (dim_x dim_y : Nat)
    (series : DTimeSeries) (covariates : Option DTimeSeries)
    (num_samples : Nat) (sampler : Vec → Mat → Nat → Mat)
    (hdet : series.is_deterministic = true) :
    (KalmanFilter.init (σ := σ) dim_x dim_y none).filter series covariates
      num_samples sampler = .error .attributeError ∧
    (KalmanFilter.init (σ := σ) dim_x dim_y none).filter series covariates
      num_samples sampler ≠ .error .validationError := by
  have hmain : (KalmanFilter.init (σ := σ) dim_x dim_y none).filter series covariates
      num_samples sampler = .error .attributeError := by
    unfold KalmanFilter.init KalmanFilter.filter
    rw [if_neg (by rw [hdet]; exact fun hc => Bool.noConfusion hc)]
    rw [if_neg (by rintro ⟨hc, -⟩; exact Bool.noConfusion hc)]
  refine ⟨hmain, ?_⟩
  rw [hmain]
  intro hc
  rw [Except.error.injEq] at hc
  exact DartsError.noConfusion hc

/-- Witness for C10: a concrete unfitted estimator over `seriesC`. -/
theorem C10_witness :
    seriesC.is_deterministic = true ∧
    (KalmanFilter.init (σ := Nat) 1 1 none).filter seriesC none 1 (fun _ _ _ => []) =
      .error .attributeError :=
  ⟨rfl, (C10_unfitted_no_entry_validation 1 1 seriesC none 1 (fun _ _ _ => []) rfl).1⟩

end Darts
